import Mathlib

/-!
Shallow embedding of the Gemini3 particle-visualizer repository.

The numeric model is the real numbers; each use of the host random
source (Math.random, one value in [0,1) per call) is modelled by an
explicit draw function passed to the embedded definition, indexed by
the loop iteration that consumes it.  Effectful collaborators (the
remote shape-generation call, the JSON parser) are modelled as oracle
arguments, and the thrown/returned behaviour of the service is an
Except value.
-/

open Real

noncomputable section
open scoped Classical

/-- src/types.ts: Point3D, a real-valued 3D coordinate. -/
structure Point3D where
  x : ℝ
  y : ℝ
  z : ℝ

/-- Euclidean distance of a point from the origin. -/
def eucDistOrigin (p : Point3D) : ℝ :=
  Real.sqrt (p.x ^ 2 + p.y ^ 2 + p.z ^ 2)

/-! ## src/utils/geometry.ts -/

/-- src/utils/geometry.ts, generateSphere: `u1 i` and `u2 i` are the two
Math.random() draws of iteration `i`. -/
def generateSphere (count : ℕ) (u1 u2 : ℕ → ℝ) : List Point3D :=
  (List.range count).map fun i =>
    let theta := u1 i * 2 * Real.pi
    let phi := Real.arccos (2 * u2 i - 1)
    let r : ℝ := 1.2
    ⟨r * Real.sin phi * Real.cos theta,
     r * Real.sin phi * Real.sin theta,
     r * Real.cos phi⟩

/-- src/utils/geometry.ts, generateCube: `ua i` drives the snapped axis,
`us i` the sign, `ux i`/`uy i`/`uz i` the interior coordinates. -/
def generateCube (count : ℕ) (ua us ux uy uz : ℕ → ℝ) : List Point3D :=
  (List.range count).map fun i =>
    let axis := ⌊ua i * 3⌋
    let sign : ℝ := if us i < 0.5 then -1 else 1
    let p : Point3D := ⟨(ux i * 2 - 1) * 1.2, (uy i * 2 - 1) * 1.2, (uz i * 2 - 1) * 1.2⟩
    if axis = 0 then ⟨sign * 1.2, p.y, p.z⟩
    else if axis = 1 then ⟨p.x, sign * 1.2, p.z⟩
    else ⟨p.x, p.y, sign * 1.2⟩

/-- src/utils/geometry.ts line 43 and 52: the normalized height
`y = (h + 1) / 2.5` for the height draw `h = u * 3 - 1.0`. -/
def bottleY (u : ℝ) : ℝ :=
  ((u * 3 - 1.0) + 1) / 2.5

/-- src/utils/geometry.ts lines 54-70: the piecewise radius profile of the
bottle; `u` is the Math.random() draw used by the disk base branch. -/
def bottleRadius (y u : ℝ) : ℝ :=
  if y < 0.05 then Real.sqrt u * 0.8
  else if y < 0.6 then 0.8
  else if y < 0.7 then
    let t := (y - 0.6) / 0.1
    0.8 * (1 - t) + 0.3 * t
  else if y < 0.95 then 0.3
  else 0.35

/-- src/utils/geometry.ts, generateBottle: `uh i` is the height draw,
`ut i` the angle draw and `ub i` the disk-base radius draw of iteration `i`. -/
def generateBottle (count : ℕ) (uh ut ub : ℕ → ℝ) : List Point3D :=
  (List.range count).map fun i =>
    let theta := ut i * 2 * Real.pi
    let y := bottleY (uh i)
    let r := bottleRadius y (ub i)
    ⟨r * Real.cos theta, y * 3.5 - 1.5, r * Real.sin theta⟩

/-! ## src/components/HandController.tsx (gesture extraction, predictWebcam) -/

/-- src/types.ts: HandData, the gesture state emitted once per processed frame. -/
structure GestureState where
  detected : Bool
  isOpen : Bool
  openness : ℝ

/-- Euclidean distance between two landmarks, depth component included
(predictWebcam lines 83-88). -/
def dist3 (a b : Point3D) : ℝ :=
  Real.sqrt ((a.x - b.x) * (a.x - b.x) + (a.y - b.y) * (a.y - b.y)
    + (a.z - b.z) * (a.z - b.z))

/-- The five fingertip landmark indices (thumb, index, middle, ring, pinky). -/
def tipIndices : List ℕ := [4, 8, 12, 16, 20]

/-- Average wrist-to-fingertip distance; the wrist is landmark 0. -/
def avgTipDist (landmarks : ℕ → Point3D) : ℝ :=
  (tipIndices.map fun idx => dist3 (landmarks idx) (landmarks 0)).sum / 5

/-- predictWebcam line 95: lower end of the empirical distance range. -/
def minVal : ℝ := 0.15
/-- predictWebcam line 96: upper end of the empirical distance range. -/
def maxVal : ℝ := 0.45

/-- predictWebcam lines 97-98: rescale the average distance from
[minVal, maxVal] to [0,1] and clamp. -/
def opennessOf (landmarks : ℕ → Point3D) : ℝ :=
  max 0 (min 1 ((avgTipDist landmarks - minVal) / (maxVal - minVal)))

/-- predictWebcam lines 71-107: the gesture state emitted for one frame;
`none` models a frame with no detected hand. -/
def extractGesture (hand : Option (ℕ → Point3D)) : GestureState :=
  match hand with
  | none => ⟨false, false, 0⟩
  | some landmarks =>
      let openness := opennessOf landmarks
      ⟨true, if openness > 0.5 then true else false, openness⟩

/-! ## src/components/AudioController.tsx -/

/-- AudioController line 39: the intensity the audio mapper consumes; the
no-hand default is the idle value 0.1. -/
def audioIntensity (handDetected : Bool) (handOpenness : ℝ) : ℝ :=
  if handDetected then handOpenness else 0.1

/-- AudioController line 44. -/
def minFreq : ℝ := 150
/-- AudioController line 45. -/
def maxFreq : ℝ := 6000
/-- AudioController line 47: target low-pass cutoff. -/
def targetFreq (intensity : ℝ) : ℝ :=
  minFreq + intensity ^ 2 * (maxFreq - minFreq)

/-- AudioController line 51. -/
def minVol : ℝ := 0.3
/-- AudioController line 52. -/
def maxVol : ℝ := 0.6
/-- AudioController line 53: target master gain. -/
def targetVol (intensity : ℝ) : ℝ :=
  minVol + intensity * (maxVol - minVol)

/-! ## src/components/ParticleScene.tsx (the per-frame particle update) -/

/-- ParticleScene line 15. -/
def DAMPING_FACTOR : ℝ := 0.06
/-- ParticleScene line 16. -/
def EXPLOSION_SCALE : ℝ := 6.0

/-- ParticleScene line 46: the intensity the visual simulation consumes;
the no-hand default is 0 (formed shape). -/
def activeOpenness (handDetected : Bool) (handOpenness : ℝ) : ℝ :=
  if handDetected then handOpenness else 0

/-- ParticleScene line 49: idle breathing term. -/
def breatheAt (handDetected : Bool) (time : ℝ) : ℝ :=
  if handDetected then 0 else Real.sin (time * 1.5) * 0.05

/-- ParticleScene line 57: `i % (targetPoints.length || 1)`. -/
def targetIndex (targetPoints : List Point3D) (i : ℕ) : ℕ :=
  i % (if targetPoints.length = 0 then 1 else targetPoints.length)

/-- ParticleScene line 58: the table entry a particle chases, or the origin
when the target point set is empty. -/
def rawTargetOf (targetPoints : List Point3D) (i : ℕ) : Point3D :=
  if 0 < targetPoints.length then targetPoints.getD (targetIndex targetPoints i) ⟨0, 0, 0⟩
  else ⟨0, 0, 0⟩

/-- ParticleScene line 60. -/
def jitterAmp : ℝ := 0.02

/-- ParticleScene lines 60-65: the per-axis jittered target; `jx jy jz` are
the three Math.random() draws of this particle and frame. -/
def jitteredTarget (targetPoints : List Point3D) (i : ℕ) (jx jy jz : ℝ) : Point3D :=
  let rawTarget := rawTargetOf targetPoints i
  ⟨rawTarget.x + (jx - 0.5) * jitterAmp,
   rawTarget.y + (jy - 0.5) * jitterAmp,
   rawTarget.z + (jz - 0.5) * jitterAmp⟩

/-- ParticleScene line 68. -/
def noiseX (time : ℝ) (i : ℕ) : ℝ := Real.sin (time * 2 + i * 0.1) * 0.5
/-- ParticleScene line 69. -/
def noiseY (time : ℝ) (i : ℕ) : ℝ := Real.cos (time * 1.5 + i * 0.1) * 0.5
/-- ParticleScene line 70. -/
def noiseZ (time : ℝ) (i : ℕ) : ℝ := Real.sin (time + i * 0.1) * 0.5

/-- ParticleScene line 72. -/
def baseScale : ℝ := 1.8

/-- ParticleScene line 79: the denominator normalizing the outward
explosion direction. -/
def explosionLen (tx ty tz : ℝ) : ℝ :=
  Real.sqrt (tx * tx + ty * ty + tz * tz) + 0.001

/-- ParticleScene line 86: super-linear explosion magnitude. -/
def explosionForce (activeOp : ℝ) : ℝ :=
  activeOp ^ (1.5 : ℝ) * EXPLOSION_SCALE

/-- ParticleScene lines 54-90: the instantaneous target position of
particle `i` for one frame. -/
def particleTarget (targetPoints : List Point3D) (handDetected : Bool)
    (handOpenness time : ℝ) (i : ℕ) (jx jy jz : ℝ) : Point3D :=
  let activeOp := activeOpenness handDetected handOpenness
  let breathe := breatheAt handDetected time
  let target := jitteredTarget targetPoints i jx jy jz
  let tx := target.x * baseScale * (1 + breathe)
  let ty := target.y * baseScale * (1 + breathe)
  let tz := target.z * baseScale * (1 + breathe)
  let len := explosionLen tx ty tz
  let force := explosionForce activeOp
  ⟨tx + (tx / len) * force + noiseX time i * activeOp * 2.5,
   ty + (ty / len) * force + noiseY time i * activeOp * 2.5,
   tz + (tz / len) * force + noiseZ time i * activeOp * 2.5⟩

/-- ParticleScene lines 93-95: one damped step of a single coordinate. -/
def updateCoord (p t : ℝ) : ℝ :=
  p + (t - p) * DAMPING_FACTOR

/-- The damped step applied to all three coordinates of a particle. -/
def updateParticle (p t : Point3D) : Point3D :=
  ⟨updateCoord p.x t.x, updateCoord p.y t.y, updateCoord p.z t.z⟩

/-! ## src/services/geminiService.ts -/

/-- The distinguishable failure modes of the shape-generation service. -/
inductive GenError
  | missingKey
  | callFailure
  | emptyResponse
  | parseFailure
deriving DecidableEq

/-- The JSON object a successful parse yields: the `points` field may be
absent. -/
structure ParsedShape where
  points : Option (List Point3D)

/-- Outcome of the remote generateContent call: it throws, or returns a
response whose `text` is absent/empty (`none`) or some string. -/
inductive CallOutcome
  | failure
  | success (text : Option String)

/-- geminiService.ts lines 67-131 (the variant App.tsx consumes): missing or
empty credential throws API_KEY_MISSING before the call; a thrown call, an
empty response text and an unparsable body are rethrown as distinct errors;
a parsed body yields `points` defaulted to the empty list. -/
def generateShapePoints (apiKey : Option String) (outcome : CallOutcome)
    (parse : String → Option ParsedShape) : Except GenError (List Point3D) :=
  match apiKey with
  | none => .error .missingKey
  | some k =>
      if k = "" then .error .missingKey
      else
        match outcome with
        | .failure => .error .callFailure
        | .success none => .error .emptyResponse
        | .success (some t) =>
            match parse t with
            | none => .error .parseFailure
            | some parsed => .ok (parsed.points.getD [])

/-- geminiService.ts lines 136-193 (the variant of the file's last block):
a missing or empty credential logs a warning and returns the empty list;
otherwise it behaves as the other variant. -/
def generateShapePointsV3 (apiKey : Option String) (outcome : CallOutcome)
    (parse : String → Option ParsedShape) : Except GenError (List Point3D) :=
  match apiKey with
  | none => .ok []
  | some k =>
      if k = "" then .ok []
      else
        match outcome with
        | .failure => .error .callFailure
        | .success none => .error .emptyResponse
        | .success (some t) =>
            match parse t with
            | none => .error .parseFailure
            | some parsed => .ok (parsed.points.getD [])

/-- Pointwise continuity, stated with an explicit epsilon-delta bound. -/
def ContinuousAtPt (f : ℝ → ℝ) (a : ℝ) : Prop :=
  ∀ ε : ℝ, 0 < ε → ∃ δ : ℝ, 0 < δ ∧ ∀ x : ℝ, |x - a| < δ → |f x - f a| < ε

/-! ## Theorems -/

/-- C3: for every intensity, the audio parameter mapper targets a filter
cutoff of `150 + intensity^2 * (6000 - 150)` Hz and a master gain of
`0.3 + intensity * (0.6 - 0.3)`; intensity 0 gives cutoff 150 and gain 0.3,
intensity 1 gives cutoff 6000 and gain 0.6. -/
theorem audio_mapping_targets :
    targetFreq 0 = 150 ∧ targetFreq 1 = 6000 ∧
    targetVol 0 = 0.3 ∧ targetVol 1 = 0.6 ∧
    (∀ intensity : ℝ, targetFreq intensity = 150 + intensity ^ 2 * (6000 - 150)) ∧
    (∀ intensity : ℝ, targetVol intensity = 0.3 + intensity * (0.6 - 0.3)) := by
  refine ⟨?_, ?_, ?_, ?_, ?_, ?_⟩ <;>
    simp [targetFreq, targetVol, minFreq, maxFreq, minVol, maxVol]

/-- C6: with no hand detected the visual particle simulation uses intensity
exactly 0 while the audio mapper uses exactly 0.1; with a hand detected both
consume the raw openness; the two no-hand defaults are distinct. -/
theorem intensity_default_asymmetry :
    (∀ handOpenness : ℝ, activeOpenness false handOpenness = 0) ∧
    (∀ handOpenness : ℝ, audioIntensity false handOpenness = 0.1) ∧
    (∀ handOpenness : ℝ, activeOpenness true handOpenness = handOpenness) ∧
    (∀ handOpenness : ℝ, audioIntensity true handOpenness = handOpenness) ∧
    (0 : ℝ) ≠ 0.1 := by
  refine ⟨fun _ => rfl, fun _ => rfl, fun _ => rfl, fun _ => rfl, by norm_num⟩

/-- C7: the per-frame position update of each coordinate is
`position + (target - position) * 0.06`, and it is idempotent at the
target: a particle already at its computed target stays there. -/
theorem updateCoord_formula_idempotent :
    DAMPING_FACTOR = 0.06 ∧
    (∀ p t : ℝ, updateCoord p t = p + (t - p) * 0.06) ∧
    (∀ p t : ℝ, p = t → updateCoord p t = p) ∧
    (∀ p : Point3D, updateParticle p p = p) := by
  refine ⟨rfl, fun p t => rfl, ?_, ?_⟩
  · rintro p t rfl
    simp [updateCoord]
  · rintro ⟨px, py, pz⟩
    simp [updateParticle, updateCoord]

/-- C10: the denominator normalizing the outward explosion direction,
`sqrt (tx^2 + ty^2 + tz^2) + 0.001`, is strictly positive for every input,
and equals 0.001 when the scaled target is exactly the origin, so the
per-frame particle update never divides by zero. -/
theorem explosionLen_pos :
    (∀ tx ty tz : ℝ, 0 < explosionLen tx ty tz) ∧
    explosionLen 0 0 0 = 0.001 := by
  constructor
  · intro tx ty tz
    unfold explosionLen
    positivity
  · unfold explosionLen
    norm_num

/-- C2: the gesture extractor emits `{detected := false, isOpen := false,
openness := 0}` when no hand is detected; otherwise the openness is the
average wrist-to-fingertip distance (depth included) rescaled from
[0.15, 0.45] and clamped to [0,1], so openness always lies in [0,1]; and
for every emitted state, `isOpen` is true iff `openness > 0.5`. -/
theorem extractGesture_contract :
    extractGesture none = ⟨false, false, 0⟩ ∧
    minVal = 0.15 ∧ maxVal = 0.45 ∧
    (∀ landmarks : ℕ → Point3D, (extractGesture (some landmarks)).detected = true) ∧
    (∀ landmarks : ℕ → Point3D, (extractGesture (some landmarks)).openness =
      max 0 (min 1 ((avgTipDist landmarks - minVal) / (maxVal - minVal)))) ∧
    (∀ landmarks : ℕ → Point3D, 0 ≤ (extractGesture (some landmarks)).openness ∧
      (extractGesture (some landmarks)).openness ≤ 1) ∧
    (∀ hand : Option (ℕ → Point3D),
      (extractGesture hand).isOpen = true ↔ (extractGesture hand).openness > 0.5) := by
  refine ⟨rfl, rfl, rfl, fun _ => rfl, fun _ => rfl, ?_, ?_⟩
  · intro landmarks
    constructor
    · exact le_max_left 0 _
    · exact max_le (by norm_num) (min_le_left 1 _)
  · intro hand
    match hand with
    | none =>
        simp [extractGesture]
        norm_num
    | some landmarks =>
        simp only [extractGesture]
        by_cases h : opennessOf landmarks > 0.5 <;> simp [h]

/-- C5: with a nonempty target point set, particle `i` chases the table
entry at index `i mod N_target` (always in bounds) plus jitter of at most
0.01 per axis; with an empty target point set the raw target is the
origin. -/
theorem particle_raw_target_and_jitter :
    (∀ (targetPoints : List Point3D) (i : ℕ), targetPoints.length = 0 →
      rawTargetOf targetPoints i = ⟨0, 0, 0⟩) ∧
    (∀ (targetPoints : List Point3D) (i : ℕ), 0 < targetPoints.length →
      targetIndex targetPoints i = i % targetPoints.length ∧
      targetIndex targetPoints i < targetPoints.length ∧
      rawTargetOf targetPoints i = targetPoints.getD (i % targetPoints.length) ⟨0, 0, 0⟩) ∧
    (∀ (targetPoints : List Point3D) (i : ℕ) (jx jy jz : ℝ),
      0 ≤ jx → jx ≤ 1 →
      |(jitteredTarget targetPoints i jx jy jz).x - (rawTargetOf targetPoints i).x| ≤ 0.01) ∧
    (∀ (targetPoints : List Point3D) (i : ℕ) (jx jy jz : ℝ),
      0 ≤ jy → jy ≤ 1 →
      |(jitteredTarget targetPoints i jx jy jz).y - (rawTargetOf targetPoints i).y| ≤ 0.01) ∧
    (∀ (targetPoints : List Point3D) (i : ℕ) (jx jy jz : ℝ),
      0 ≤ jz → jz ≤ 1 →
      |(jitteredTarget targetPoints i jx jy jz).z - (rawTargetOf targetPoints i).z| ≤ 0.01) := by
  have jbound : ∀ j : ℝ, 0 ≤ j → j ≤ 1 → |(j - 0.5) * jitterAmp| ≤ 0.01 := by
    intro j h0 h1
    rw [abs_le]
    constructor <;> · simp only [jitterAmp]; nlinarith
  refine ⟨?_, ?_, ?_, ?_, ?_⟩
  · intro targetPoints i h
    simp [rawTargetOf, h]
  · intro targetPoints i h
    have hne : targetPoints.length ≠ 0 := Nat.pos_iff_ne_zero.mp h
    refine ⟨by simp [targetIndex, hne], ?_, by simp [rawTargetOf, targetIndex, hne, h]⟩
    simp only [targetIndex, hne, if_neg]
    exact Nat.mod_lt i h
  · intro targetPoints i jx jy jz h0 h1
    simpa [jitteredTarget] using jbound jx h0 h1
  · intro targetPoints i jx jy jz h0 h1
    simpa [jitteredTarget] using jbound jy h0 h1
  · intro targetPoints i jx jy jz h0 h1
    simpa [jitteredTarget] using jbound jz h0 h1

/-- C9: each shape generator returns exactly `count` points (count 0 gives
the empty list), and every point of the sphere lies at Euclidean distance
exactly 1.2 from the origin. -/
theorem generate_count_and_sphere_radius :
    (∀ (count : ℕ) (u1 u2 : ℕ → ℝ), (generateSphere count u1 u2).length = count) ∧
    (∀ (count : ℕ) (ua us ux uy uz : ℕ → ℝ),
      (generateCube count ua us ux uy uz).length = count) ∧
    (∀ (count : ℕ) (uh ut ub : ℕ → ℝ), (generateBottle count uh ut ub).length = count) ∧
    (∀ (u1 u2 : ℕ → ℝ), generateSphere 0 u1 u2 = []) ∧
    (∀ (count : ℕ) (u1 u2 : ℕ → ℝ) (p : Point3D),
      p ∈ generateSphere count u1 u2 → eucDistOrigin p = 1.2) := by
  refine ⟨?_, ?_, ?_, ?_, ?_⟩
  · intro count u1 u2; simp [generateSphere]
  · intro count ua us ux uy uz; simp [generateCube]
  · intro count uh ut ub; simp [generateBottle]
  · intro u1 u2; simp [generateSphere]
  · intro count u1 u2 p hp
    simp only [generateSphere, List.mem_map, List.mem_range] at hp
    obtain ⟨i, _, rfl⟩ := hp
    have hs := Real.sin_sq_add_cos_sq (Real.arccos (2 * u2 i - 1))
    have ht := Real.sin_sq_add_cos_sq (u1 i * 2 * Real.pi)
    have hsum :
        (1.2 * Real.sin (Real.arccos (2 * u2 i - 1)) * Real.cos (u1 i * 2 * Real.pi)) ^ 2 +
        (1.2 * Real.sin (Real.arccos (2 * u2 i - 1)) * Real.sin (u1 i * 2 * Real.pi)) ^ 2 +
        (1.2 * Real.cos (Real.arccos (2 * u2 i - 1))) ^ 2 = 1.2 ^ 2 := by
      nlinarith [hs, ht]
    simp only [eucDistOrigin]
    rw [hsum, Real.sqrt_sq (by norm_num)]

/-! Band lemmas for the bottle radius profile. -/

theorem bottleRadius_body (y u : ℝ) (h1 : 0.05 ≤ y) (h2 : y < 0.6) :
    bottleRadius y u = 0.8 := by
  simp only [bottleRadius]
  rw [if_neg (by linarith), if_pos h2]

theorem bottleRadius_shoulder (y u : ℝ) (h1 : 0.6 ≤ y) (h2 : y < 0.7) :
    bottleRadius y u = 0.8 * (1 - (y - 0.6) / 0.1) + 0.3 * ((y - 0.6) / 0.1) := by
  simp only [bottleRadius]
  rw [if_neg (by linarith), if_neg (by linarith), if_pos h2]

theorem bottleRadius_neck (y u : ℝ) (h1 : 0.7 ≤ y) (h2 : y < 0.95) :
    bottleRadius y u = 0.3 := by
  simp only [bottleRadius]
  rw [if_neg (by linarith), if_neg (by linarith), if_neg (by linarith), if_pos h2]

theorem bottleRadius_lip (y u : ℝ) (h1 : 0.95 ≤ y) :
    bottleRadius y u = 0.35 := by
  simp only [bottleRadius]
  rw [if_neg (by linarith), if_neg (by linarith), if_neg (by linarith),
    if_neg (by linarith)]

/-- C1 amended: the radius matches the piecewise table exactly (r = 0.8 at
y = 0.6, 0.3 at y = 0.7, 0.35 at y = 0.95, 0.8 on the body band, the linear
interpolation on the shoulder band, 0.3 on the neck band, 0.35 from 0.95 up)
and is continuous across the 0.6 and 0.7 breakpoints; at y = 0.95 the
radius jumps from 0.3 to 0.35. -/
theorem bottleRadius_table_and_continuity :
    (∀ u : ℝ, bottleRadius 0.6 u = 0.8) ∧
    (∀ u : ℝ, bottleRadius 0.7 u = 0.3) ∧
    (∀ u : ℝ, bottleRadius 0.95 u = 0.35) ∧
    (∀ y u : ℝ, 0.05 ≤ y → y < 0.6 → bottleRadius y u = 0.8) ∧
    (∀ y u : ℝ, 0.6 ≤ y → y < 0.7 →
      bottleRadius y u = 0.8 * (1 - (y - 0.6) / 0.1) + 0.3 * ((y - 0.6) / 0.1)) ∧
    (∀ y u : ℝ, 0.7 ≤ y → y < 0.95 → bottleRadius y u = 0.3) ∧
    (∀ y u : ℝ, 0.95 ≤ y → bottleRadius y u = 0.35) ∧
    (∀ u : ℝ, ContinuousAtPt (fun y => bottleRadius y u) 0.6) ∧
    (∀ u : ℝ, ContinuousAtPt (fun y => bottleRadius y u) 0.7) := by
  refine ⟨?_, ?_, ?_, bottleRadius_body, bottleRadius_shoulder, bottleRadius_neck,
    bottleRadius_lip, ?_, ?_⟩
  · intro u
    rw [bottleRadius_shoulder 0.6 u (by norm_num) (by norm_num)]
    norm_num
  · intro u
    exact bottleRadius_neck 0.7 u (by norm_num) (by norm_num)
  · intro u
    exact bottleRadius_lip 0.95 u (by norm_num)
  · intro u ε hε
    refine ⟨min (ε / 5) 0.05, lt_min (by linarith) (by norm_num), ?_⟩
    intro x hx
    have hδ1 : |x - 0.6| < ε / 5 := lt_of_lt_of_le hx (min_le_left _ _)
    have hδ2 : |x - 0.6| < 0.05 := lt_of_lt_of_le hx (min_le_right _ _)
    obtain ⟨ha, hb⟩ := abs_lt.mp hδ2
    obtain ⟨hc, hd⟩ := abs_lt.mp hδ1
    have hf6 : bottleRadius 0.6 u = 0.8 := by
      rw [bottleRadius_shoulder 0.6 u (by norm_num) (by norm_num)]; norm_num
    simp only
    by_cases hcase : x < 0.6
    · rw [bottleRadius_body x u (by linarith) hcase, hf6]
      simpa using hε
    · have hxr : bottleRadius x u - bottleRadius 0.6 u = -5 * (x - 0.6) := by
        rw [bottleRadius_shoulder x u (le_of_not_lt hcase) (by linarith), hf6]
        ring
      rw [hxr, abs_lt]
      constructor <;> linarith
  · intro u ε hε
    refine ⟨min (ε / 5) 0.05, lt_min (by linarith) (by norm_num), ?_⟩
    intro x hx
    have hδ1 : |x - 0.7| < ε / 5 := lt_of_lt_of_le hx (min_le_left _ _)
    have hδ2 : |x - 0.7| < 0.05 := lt_of_lt_of_le hx (min_le_right _ _)
    obtain ⟨ha, hb⟩ := abs_lt.mp hδ2
    obtain ⟨hc, hd⟩ := abs_lt.mp hδ1
    have hf7 : bottleRadius 0.7 u = 0.3 := bottleRadius_neck 0.7 u (by norm_num) (by norm_num)
    simp only
    by_cases hcase : x < 0.7
    · have hxr : bottleRadius x u - bottleRadius 0.7 u = 5 * (0.7 - x) := by
        rw [bottleRadius_shoulder x u (by linarith) hcase, hf7]
        ring
      rw [hxr, abs_lt]
      constructor <;> linarith
    · rw [bottleRadius_neck x u (le_of_not_lt hcase) (by linarith), hf7]
      simpa using hε

/-- C1 counterexample: the bottle radius is not continuous at the 0.95
breakpoint: it is 0.3 arbitrarily close below 0.95 and 0.35 at 0.95. -/
theorem bottleRadius_jump_at_lip :
    ¬ ContinuousAtPt (fun y => bottleRadius y 0) 0.95 := by
  intro h
  obtain ⟨δ, hδ, hball⟩ := h 0.04 (by norm_num)
  have hx1 : (0.7 : ℝ) ≤ max 0.7 (0.95 - δ / 2) := le_max_left _ _
  have hx2 : max (0.7 : ℝ) (0.95 - δ / 2) < 0.95 := max_lt (by norm_num) (by linarith)
  have hxa : |max (0.7 : ℝ) (0.95 - δ / 2) - 0.95| < δ := by
    rw [abs_lt]
    have hge : (0.95 : ℝ) - δ / 2 ≤ max 0.7 (0.95 - δ / 2) := le_max_right _ _
    constructor <;> linarith
  have hmem := hball _ hxa
  simp only at hmem
  rw [bottleRadius_neck _ 0 hx1 hx2, bottleRadius_lip 0.95 0 (by norm_num)] at hmem
  have habs : |(0.3 : ℝ) - 0.35| = 0.05 := by
    rw [abs_sub_comm, abs_of_nonneg (by norm_num)]
    norm_num
  rw [habs] at hmem
  linarith

/-- C8 amended: for a height draw `u` in [0,1) the normalized height
`bottleY u` lies in [0, 1.2), and the point emitted for iteration `i` is
exactly `(r cos θ, 3.5 y − 1.5, r sin θ)` for the profile radius `r` and
angle `θ = ut i * 2π`. -/
theorem generateBottle_point_formula :
    (∀ u : ℝ, 0 ≤ u → u < 1 → 0 ≤ bottleY u ∧ bottleY u < 1.2) ∧
    (∀ (count : ℕ) (uh ut ub : ℕ → ℝ) (i : ℕ), i < count →
      (generateBottle count uh ut ub)[i]? =
        some ⟨bottleRadius (bottleY (uh i)) (ub i) * Real.cos (ut i * 2 * Real.pi),
              3.5 * bottleY (uh i) - 1.5,
              bottleRadius (bottleY (uh i)) (ub i) * Real.sin (ut i * 2 * Real.pi)⟩) := by
  constructor
  · intro u h0 h1
    have he : bottleY u = u * 1.2 := by
      simp only [bottleY]; ring
    rw [he]
    constructor <;> nlinarith
  · intro count uh ut ub i hi
    simp only [generateBottle]
    rw [List.getElem?_map, List.getElem?_range hi]
    simp only [Option.map_some']
    congr 1
    simp only [Point3D.mk.injEq]
    refine ⟨trivial, by ring, trivial⟩

/-- C8 counterexample: the height draw u = 0.9 gives normalized height
1.08, outside [0,1]. -/
theorem bottleY_exceeds_one :
    bottleY 0.9 = 1.08 ∧ ¬ bottleY 0.9 ≤ 1 := by
  norm_num [bottleY]

/-- C4 amended: in the service variant App.tsx consumes, a missing or empty
credential yields the missing-key error before any call, a thrown call, an
empty response and an unparsable body each yield their own distinct error,
and none of those cases returns a point list; however a parsed response
lacking the `points` field yields the empty list without an error, and the
variant at lines 138-143 returns the empty list silently when the
credential is absent. -/
theorem generateShapePoints_error_signals :
    (∀ outcome parse, generateShapePoints none outcome parse =
      Except.error GenError.missingKey) ∧
    (∀ outcome parse, generateShapePoints (some "") outcome parse =
      Except.error GenError.missingKey) ∧
    (∀ (k : String) parse, k ≠ "" →
      generateShapePoints (some k) CallOutcome.failure parse =
        Except.error GenError.callFailure) ∧
    (∀ (k : String) parse, k ≠ "" →
      generateShapePoints (some k) (CallOutcome.success none) parse =
        Except.error GenError.emptyResponse) ∧
    (∀ (k t : String) (parse : String → Option ParsedShape), k ≠ "" → parse t = none →
      generateShapePoints (some k) (CallOutcome.success (some t)) parse =
        Except.error GenError.parseFailure) ∧
    GenError.missingKey ≠ GenError.callFailure ∧
    (∀ (k t : String), k ≠ "" →
      generateShapePoints (some k) (CallOutcome.success (some t)) (fun _ => some ⟨none⟩) =
        Except.ok []) ∧
    (∀ outcome parse, generateShapePointsV3 none outcome parse = Except.ok []) := by
  refine ⟨fun _ _ => rfl, fun _ _ => rfl, ?_, ?_, ?_, by decide, ?_, fun _ _ => rfl⟩
  · intro k parse hk
    simp [generateShapePoints, hk]
  · intro k parse hk
    simp [generateShapePoints, hk]
  · intro k t parse hk hp
    simp [generateShapePoints, hk, hp]
  · intro k t hk
    simp [generateShapePoints, hk, Option.getD]

/-- C4 counterexample: the variant of geminiService.ts at lines 138-143
returns the empty point list with no error signal when the API credential
is absent. -/
theorem generateShapePointsV3_silent_empty :
    generateShapePointsV3 none CallOutcome.failure (fun _ => none) =
      Except.ok ([] : List Point3D) := rfl

end
